import Mathlib

/-!
Shallow embedding of the SecureGist backend (`src/backend/src`): the gist
lifecycle state machine implemented by `models.py`, `schemas.py`, `crud.py`,
`api.py`, and the S3 wrapper `storage.py`.

Modelling conventions:
* Python `datetime` instants are modelled as integers (naive UTC instants,
  totally ordered, as `datetime < datetime` is).
* The relational store is the list of `Gist` rows; `gist_id` is the primary
  key, so at most one row carries a given id and row deletion is modelled
  by filtering that id out.
* The object store is the list of blob keys currently stored, and the S3
  provider's behaviour (success or `ClientError` per call kind, and the
  provider-chosen grant contents) is an explicit environment `StorageEnv`.
  `storage.py` catches `ClientError` in every method, so a provider error
  never propagates as an exception.
* `uuid4()` and `datetime.now` defaults are passed in as arguments
  (`newId`, `now`).
-/

/-- The opaque JSON object supplied by the client (`gist_metadata`): the
server stores and returns it but never interprets it. -/
abbrev Meta := List (String × String)

/-- `models.Gist`: the sole persisted entity (table `gists`). -/
structure Gist where
  gist_id : String
  gist_metadata : Meta
  created_at : Int
  expiration_date : Option Int
  read_count : Int
  max_reads : Int
  version_history : Option (List String)
  deriving Repr, DecidableEq

/-- Persisted system state: the `gists` table plus the object-store bucket
(the set of blob keys currently stored). -/
structure St where
  db : List Gist
  blobs : List String
  deriving Repr, DecidableEq

/-- A presigned POST grant as returned by `generate_presigned_post`
(URL plus required form fields). -/
structure UploadParams where
  url : String
  fields : Meta
  deriving Repr, DecidableEq

/-- Behaviour of the S3 provider: whether each call kind succeeds, and the
provider-chosen grant contents (already endpoint-rewritten, as
`Storage._replace_endpoint` is a pure string substitution). -/
structure StorageEnv where
  presignPostOk : Bool
  presignOk : Bool
  deleteOk : Bool
  postFor : String → UploadParams
  urlFor : String → String

namespace Storage

/-- `Storage.generate_presigned_post`: returns the grant, or `None` when the
provider raises `ClientError` (caught; only logged). -/
def generate_presigned_post (env : StorageEnv) (key : String) :
    Option UploadParams :=
  if env.presignPostOk then some (env.postFor key) else none

/-- `Storage.generate_presigned_url`: returns the download URL, or `None`
when the provider raises `ClientError` (caught; only logged). -/
def generate_presigned_url (env : StorageEnv) (key : String) : Option String :=
  if env.presignOk then some (env.urlFor key) else none

/-- `Storage.delete`: best-effort blob deletion. Returns `True` and removes
the blob on success; on `ClientError` returns `False` (only logged) and the
blob stays. -/
def delete (env : StorageEnv) (blobs : List String) (key : String) :
    Bool × List String :=
  if env.deleteOk then (true, blobs.filter (fun k => k != key)) else (false, blobs)

end Storage

/-- A Python `datetime` as produced by `datetime.fromisoformat`: a naive
instant together with the optional timezone offset (`tzinfo`). -/
structure PyDatetime where
  naive : Int
  tzOffset : Option Int
  deriving Repr, DecidableEq

/-- The timezone normalization in `crud.create_gist`:
`dt.astimezone(timezone.utc).replace(tzinfo=None)` when `dt.tzinfo` is set
(the naive UTC instant is the local naive instant minus the offset),
the naive value unchanged otherwise. -/
def toUtcNaive (dt : PyDatetime) : Int :=
  match dt.tzOffset with
  | none => dt.naive
  | some off => dt.naive - off

/-- Python-level exception outcomes: `valueError` models the exception
`datetime.fromisoformat` raises on an unparseable string, which
`crud.create_gist` does not catch. -/
inductive PyError
  | valueError
  deriving Repr, DecidableEq

/-- The expiration-parsing prelude of `crud.create_gist` (lines 10-15).
The guard is Python truthiness, `if expiration_date:`, so both `None` and
the falsy empty string leave `exp_date = None`; any other string is parsed
by the stdlib `datetime.fromisoformat` (passed in as `parse`, an external
collaborator) and normalized to a naive UTC instant. An unparseable
non-empty string raises `ValueError`. -/
def parseExpiration (parse : String → Option PyDatetime)
    (expiration_date : Option String) : Except PyError (Option Int) :=
  match expiration_date with
  | none => Except.ok none
  | some s =>
    if s = "" then Except.ok none
    else
      match parse s with
      | none => Except.error PyError.valueError
      | some dt => Except.ok (some (toUtcNaive dt))

/-- `crud.create_gist`: parse/normalize the expiration string, then persist a
new `Gist` row. Column defaults from `models.Gist`: `read_count = 0`,
`version_history = NULL`, `gist_id = uuid4()` (the argument `newId`),
`created_at = now`. Returns the refreshed row. -/
def create_gist (parse : String → Option PyDatetime) (st : St)
    (newId : String) (now : Int) (gist_metadata : Meta)
    (expiration_date : Option String) (max_reads : Int) :
    Except PyError (Gist × St) :=
  match parseExpiration parse expiration_date with
  | Except.error e => Except.error e
  | Except.ok exp_date =>
    let gist : Gist :=
      { gist_id := newId, gist_metadata, created_at := now,
        expiration_date := exp_date, read_count := 0, max_reads,
        version_history := none }
    Except.ok (gist, { st with db := st.db ++ [gist] })

/-- `crud.get_gist`: `SELECT ... WHERE Gist.gist_id == gist_id` then
`scalar_one_or_none` (`gist_id` is the primary key, so at most one row
matches). -/
def get_gist (db : List Gist) (gist_id : String) : Option Gist :=
  db.find? (fun g => g.gist_id == gist_id)

/-- `crud.delete_gist`: fetch the row; if present, delete it and commit, then
best-effort delete the blob (`storage.delete`, whose Boolean result is
ignored). Returns the fetched row (or `None`). -/
def delete_gist (env : StorageEnv) (st : St) (gist_id : String) :
    Option Gist × St :=
  match get_gist st.db gist_id with
  | none => (none, st)
  | some gist =>
    let db2 := st.db.filter (fun r => r.gist_id != gist_id)
    let blobs2 := (Storage.delete env st.blobs gist.gist_id).2
    (some gist, { db := db2, blobs := blobs2 })

/-- `schemas.GistCreate`: the pydantic create payload. `expiration_date` is a
plain optional string (no format validation) and `max_reads` carries no
bounds (any int; 100 when the field is absent). -/
structure GistCreate where
  gist_metadata : Meta
  expiration_date : Option String := none
  max_reads : Int := 100
  deriving Repr, DecidableEq

/-- `schemas.GistCreateResponse`. -/
structure GistCreateResponse where
  gist_id : String
  upload_params : UploadParams
  deriving Repr, DecidableEq

/-- `schemas.GistResponse`: `download_url` is Optional with default `None`,
so a missing download URL still forms a valid success response. -/
structure GistResponse where
  gist_id : String
  download_url : Option String
  gist_metadata : Meta
  expiration_date : Option String
  read_count : Int
  max_reads : Int
  version_history : Option (List String)
  deriving Repr, DecidableEq

/-- An HTTP error response: status code plus detail string
(`fastapi.HTTPException`, or the framework's own error page). -/
structure HTTPError where
  status : Nat
  detail : String
  deriving Repr, DecidableEq

/-- `datetime.isoformat()`, the canonical serialization of an instant;
modelled as the decimal numeral, which like `isoformat` is injective. -/
def isoformat (t : Int) : String := toString t

/-- api.py line 35: `gist.expiration_date and gist.expiration_date < now`.
A `datetime` object is always truthy, so this is a `None` test followed by
the strict comparison against the current naive-UTC instant. -/
def isExpired (now : Int) (gist : Gist) : Bool :=
  match gist.expiration_date with
  | some e => decide (e < now)
  | none => false

/-- The `GistResponse(...)` constructor call at api.py lines 48-56, applied
to the row after its in-place `read_count` increment. -/
def gistResponseOf (env : StorageEnv) (gist : Gist) : GistResponse :=
  { gist_id := gist.gist_id,
    download_url := Storage.generate_presigned_url env gist.gist_id,
    gist_metadata := gist.gist_metadata,
    expiration_date := gist.expiration_date.map isoformat,
    read_count := gist.read_count,
    max_reads := gist.max_reads,
    version_history := gist.version_history }

/-- `db.commit()` after mutating the fetched ORM row in place: the table row
keyed by the gist's primary key now holds the mutated value. -/
def commitRow (db : List Gist) (gist : Gist) : List Gist :=
  db.map (fun r => if r.gist_id == gist.gist_id then gist else r)

/-- `api.api_get_gist` (GET /api/gists/gist_id): fetch (404 when absent),
expiration check (delete + 410 "Gist expired"), read-count check
(delete + 410 "Read limit exceeded"), increment + commit, mint the download
grant, and respond. -/
def api_get_gist (now : Int) (env : StorageEnv) (st : St) (gist_id : String) :
    Except HTTPError GistResponse × St :=
  match get_gist st.db gist_id with
  | none => (Except.error ⟨404, "Gist not found"⟩, st)
  | some gist =>
    if isExpired now gist then
      (Except.error ⟨410, "Gist expired"⟩, (delete_gist env st gist_id).2)
    else if gist.read_count ≥ gist.max_reads then
      (Except.error ⟨410, "Read limit exceeded"⟩, (delete_gist env st gist_id).2)
    else
      let gist2 := { gist with read_count := gist.read_count + 1 }
      let st2 : St := { st with db := commitRow st.db gist2 }
      (Except.ok (gistResponseOf env gist2), st2)

/-- `api.api_create_gist` (POST /api/gists): create the row, then mint the
upload grant (500 "Failed to generate upload URL" when minting fails — the
row is NOT rolled back). An uncaught `ValueError` from
`datetime.fromisoformat` escapes the handler and the framework answers
500 "Internal Server Error" (no row was persisted, since parsing precedes
`db.add`). -/
def api_create_gist (parse : String → Option PyDatetime) (env : StorageEnv)
    (st : St) (newId : String) (now : Int) (payload : GistCreate) :
    Except HTTPError GistCreateResponse × St :=
  match create_gist parse st newId now payload.gist_metadata
      payload.expiration_date payload.max_reads with
  | Except.error _ => (Except.error ⟨500, "Internal Server Error"⟩, st)
  | Except.ok (gist, st2) =>
    match Storage.generate_presigned_post env gist.gist_id with
    | none => (Except.error ⟨500, "Failed to generate upload URL"⟩, st2)
    | some presigned_post =>
      (Except.ok { gist_id := gist.gist_id, upload_params := presigned_post },
       st2)

/-- `api.api_delete_gist` (DELETE /api/gists/gist_id): 204 with empty body
when the row existed, 404 "Gist not found" otherwise. -/
def api_delete_gist (env : StorageEnv) (st : St) (gist_id : String) :
    Except HTTPError Nat × St :=
  match delete_gist env st gist_id with
  | (none, st2) => (Except.error ⟨404, "Gist not found"⟩, st2)
  | (some _, st2) => (Except.ok 204, st2)

/-! ### Helper lemmas about the store and the read branches -/

theorem get_gist_filter_self (db : List Gist) (gist_id : String) :
    get_gist (db.filter (fun r => r.gist_id != gist_id)) gist_id = none := by
  induction db with
  | nil => rfl
  | cons r rest ih =>
    rw [List.filter_cons]
    by_cases h : r.gist_id = gist_id
    · simp only [h, bne_self_eq_false, if_false]
      exact ih
    · have hb : (r.gist_id != gist_id) = true := by simp [h]
      simp only [hb, if_true]
      simp [get_gist, h]

theorem get_gist_delete_gist (env : StorageEnv) (st : St) (gist_id : String) :
    get_gist ((delete_gist env st gist_id).2).db gist_id = none := by
  unfold delete_gist
  cases h : get_gist st.db gist_id with
  | none => simpa using h
  | some g => simpa using get_gist_filter_self st.db gist_id

theorem get_gist_eq_id {db : List Gist} {gist_id : String} {g : Gist}
    (h : get_gist db gist_id = some g) : g.gist_id = gist_id := by
  have := List.find?_some h
  simpa using this

theorem get_gist_mem {db : List Gist} {gist_id : String} {g : Gist}
    (h : get_gist db gist_id = some g) : g ∈ db :=
  List.mem_of_find?_eq_some h

theorem get_gist_commitRow {db : List Gist} {gist_id : String} {g g2 : Gist}
    (hfind : get_gist db gist_id = some g) (hid : g2.gist_id = gist_id) :
    get_gist (commitRow db g2) gist_id = some g2 := by
  induction db with
  | nil => simp [get_gist] at hfind
  | cons r rest ih =>
    by_cases h : r.gist_id = gist_id
    · simp [get_gist, commitRow, h, hid]
    · have hfind' : get_gist rest gist_id = some g := by
        simpa [get_gist, h] using hfind
      simpa [get_gist, commitRow, h, hid] using ih hfind'

theorem get_gist_append_fresh {db : List Gist} {g : Gist}
    (hfresh : ∀ r ∈ db, r.gist_id ≠ g.gist_id) :
    get_gist (db ++ [g]) g.gist_id = some g := by
  induction db with
  | nil => simp [get_gist]
  | cons r rest ih =>
    have hr : r.gist_id ≠ g.gist_id := hfresh r (by simp)
    have ih' := ih (fun x hx => hfresh x (by simp [hx]))
    simpa [get_gist, hr] using ih'

theorem api_get_gist_absent {now : Int} {env : StorageEnv} {st : St}
    {gist_id : String} (h : get_gist st.db gist_id = none) :
    api_get_gist now env st gist_id = (Except.error ⟨404, "Gist not found"⟩, st) := by
  simp [api_get_gist, h]

theorem api_get_gist_expired {now : Int} {env : StorageEnv} {st : St}
    {gist_id : String} {g : Gist} (hfind : get_gist st.db gist_id = some g)
    (hexp : isExpired now g = true) :
    api_get_gist now env st gist_id =
      (Except.error ⟨410, "Gist expired"⟩, (delete_gist env st gist_id).2) := by
  simp [api_get_gist, hfind, hexp]

theorem api_get_gist_exhausted {now : Int} {env : StorageEnv} {st : St}
    {gist_id : String} {g : Gist} (hfind : get_gist st.db gist_id = some g)
    (hexp : isExpired now g = false) (hrc : g.read_count ≥ g.max_reads) :
    api_get_gist now env st gist_id =
      (Except.error ⟨410, "Read limit exceeded"⟩, (delete_gist env st gist_id).2) := by
  simp [api_get_gist, hfind, hexp, hrc]

theorem api_get_gist_active {now : Int} {env : StorageEnv} {st : St}
    {gist_id : String} {g : Gist} (hfind : get_gist st.db gist_id = some g)
    (hexp : isExpired now g = false) (hrc : g.read_count < g.max_reads) :
    api_get_gist now env st gist_id =
      (Except.ok (gistResponseOf env { g with read_count := g.read_count + 1 }),
       { st with db := commitRow st.db { g with read_count := g.read_count + 1 } }) := by
  simp [api_get_gist, hfind, hexp, not_le.mpr hrc]

/-- Inversion for a successful read: `api_get_gist` answers `Except.ok` only
through the final branch, so the row was found, unexpired, within budget,
and the response and committed state have the shapes built there. -/
theorem api_get_gist_ok_inv {now : Int} {env : StorageEnv} {st : St}
    {gist_id : String} {resp : GistResponse} {st2 : St}
    (h : api_get_gist now env st gist_id = (Except.ok resp, st2)) :
    ∃ g, get_gist st.db gist_id = some g ∧ isExpired now g = false ∧
      g.read_count < g.max_reads ∧
      resp = gistResponseOf env { g with read_count := g.read_count + 1 } ∧
      st2 = { st with db := commitRow st.db { g with read_count := g.read_count + 1 } } := by
  cases hfind : get_gist st.db gist_id with
  | none =>
    rw [api_get_gist_absent hfind] at h
    simp at h
  | some g =>
    cases hexp : isExpired now g with
    | true =>
      rw [api_get_gist_expired hfind hexp] at h
      simp at h
    | false =>
      by_cases hrc : g.read_count ≥ g.max_reads
      · rw [api_get_gist_exhausted hfind hexp hrc] at h
        simp at h
      · push_neg at hrc
        rw [api_get_gist_active hfind hexp hrc] at h
        simp only [Prod.mk.injEq, Except.ok.injEq] at h
        exact ⟨g, rfl, hexp, hrc, h.1.symm, h.2.symm⟩

/-- The state produced by `api_delete_gist` is the state produced by
`crud.delete_gist` (the route only translates the returned row into a
status code). -/
theorem api_delete_gist_state (env : StorageEnv) (st : St) (gist_id : String) :
    (api_delete_gist env st gist_id).2 = (delete_gist env st gist_id).2 := by
  unfold api_delete_gist
  rcases h : delete_gist env st gist_id with ⟨og, st2⟩
  cases og <;> simp

/-- Deleting an id with no row answers 404 and leaves the state untouched. -/
theorem api_delete_gist_absent {env : StorageEnv} {st : St} {gist_id : String}
    (h : get_gist st.db gist_id = none) :
    api_delete_gist env st gist_id = (Except.error ⟨404, "Gist not found"⟩, st) := by
  simp [api_delete_gist, delete_gist, h]

/-- Deleting an existing row answers 204, filters the row out of the table,
and lets `Storage.delete` act on the bucket. -/
theorem api_delete_gist_found {env : StorageEnv} {st : St} {gist_id : String}
    {g : Gist} (h : get_gist st.db gist_id = some g) :
    api_delete_gist env st gist_id =
      (Except.ok 204,
       ⟨st.db.filter (fun r => r.gist_id != gist_id),
        (Storage.delete env st.blobs g.gist_id).2⟩) := by
  simp [api_delete_gist, delete_gist, h]

/-- A read that answers a 410 leaves behind exactly the state of
`crud.delete_gist` (both Gone branches delete before raising). -/
theorem api_get_gist_gone_state {now : Int} {env : StorageEnv} {st : St}
    {gist_id : String} {e : HTTPError}
    (h : (api_get_gist now env st gist_id).1 = Except.error e)
    (hs : e.status = 410) :
    (api_get_gist now env st gist_id).2 = (delete_gist env st gist_id).2 := by
  cases hfind : get_gist st.db gist_id with
  | none =>
    rw [api_get_gist_absent hfind] at h ⊢
    simp at h
    rw [← h] at hs
    simp at hs
  | some g =>
    cases hexp : isExpired now g with
    | true => rw [api_get_gist_expired hfind hexp]
    | false =>
      by_cases hrc : g.read_count ≥ g.max_reads
      · rw [api_get_gist_exhausted hfind hexp hrc]
      · push_neg at hrc
        rw [api_get_gist_active hfind hexp hrc] at h
        simp at h

/-! ### Concrete fixtures for witnesses and counterexamples -/

/-- An everywhere-successful provider environment. -/
def envOk : StorageEnv :=
  { presignPostOk := true, presignOk := true, deleteOk := true,
    postFor := fun k => ⟨"http://s3.local/" ++ k, [("key", k)]⟩,
    urlFor := fun k => "http://s3.local/" ++ k ++ "?sig" }

/-- The same provider, but `generate_presigned_url` hits a `ClientError`. -/
def envNoUrl : StorageEnv := { envOk with presignOk := false }

/-- A concrete stdlib-parser behaviour for witnesses: parses the one
well-formed literal the witnesses use and raises `ValueError` (returns
`none`) on everything else. -/
def parseFixture : String → Option PyDatetime :=
  fun s => if s = "2030-01-01T00:00:00" then some ⟨1893456000, none⟩ else none

/-! ### C1: expiration check precedes everything else in read -/

/-- C1: in `api_get_gist` the expiration check runs before the read-count
check, the increment, and the grant minting, so a gist whose
`expiration_date` is set and strictly earlier than the current UTC instant
always fails with 410 Gone ("Gist expired") and never yields a success
response carrying a download grant — with no constraint at all on its
`read_count` or `max_reads`. -/
theorem c1_expired_read_is_gone (now : Int) (env : StorageEnv) (st : St)
    (gist_id : String) (g : Gist) (e : Int)
    (hfind : get_gist st.db gist_id = some g)
    (hexp : g.expiration_date = some e) (hlt : e < now) :
    (api_get_gist now env st gist_id).1 = Except.error ⟨410, "Gist expired"⟩ := by
  have hb : isExpired now g = true := by
    unfold isExpired
    rw [hexp]
    simpa using hlt
  rw [api_get_gist_expired hfind hb]

def gW1 : Gist := ⟨"w1", [("iv", "a")], 0, some (-5), 0, 5, none⟩

def stW1 : St := ⟨[gW1], ["w1"]⟩

theorem c1_witness :
    (api_get_gist 0 envOk stW1 "w1").1 = Except.error ⟨410, "Gist expired"⟩ :=
  c1_expired_read_is_gone 0 envOk stW1 "w1" gW1 (-5) (by rfl) (by rfl) (by decide)

/-! ### C3: read_count never observed above max_reads -/

/-- C3: (i) every successful read response satisfies
`read_count ≤ max_reads`; (ii) a read finding an unexpired row with
`read_count ≥ max_reads` (the read that would push past the cap) answers
410 Gone and deletes the row; (iii) every row persisted by
`crud.create_gist` starts with `read_count = 0`. -/
theorem c3_read_cap_invariant :
    (∀ (now : Int) (env : StorageEnv) (st : St) (gist_id : String)
        (resp : GistResponse) (st2 : St),
        api_get_gist now env st gist_id = (Except.ok resp, st2) →
        resp.read_count ≤ resp.max_reads) ∧
    (∀ (now : Int) (env : StorageEnv) (st : St) (gist_id : String) (g : Gist),
        get_gist st.db gist_id = some g → isExpired now g = false →
        g.read_count ≥ g.max_reads →
        (api_get_gist now env st gist_id).1 =
          Except.error ⟨410, "Read limit exceeded"⟩ ∧
        get_gist ((api_get_gist now env st gist_id).2).db gist_id = none) ∧
    (∀ (parse : String → Option PyDatetime) (st : St) (newId : String)
        (now : Int) (meta : Meta) (expStr : Option String) (maxr : Int)
        (g : Gist) (st1 : St),
        create_gist parse st newId now meta expStr maxr = Except.ok (g, st1) →
        g.read_count = 0) := by
  refine ⟨?_, ?_, ?_⟩
  · intro now env st gist_id resp st2 h
    obtain ⟨g, _, _, hrc, hresp, _⟩ := api_get_gist_ok_inv h
    subst hresp
    simp only [gistResponseOf]
    omega
  · intro now env st gist_id g hfind hexp hrc
    rw [api_get_gist_exhausted hfind hexp hrc]
    exact ⟨rfl, get_gist_delete_gist env st gist_id⟩
  · intro parse st newId now meta expStr maxr g st1 h
    cases hp : parseExpiration parse expStr with
    | error e => simp [create_gist, hp] at h
    | ok exp_date =>
      simp only [create_gist, hp, Except.ok.injEq, Prod.mk.injEq] at h
      rw [← h.1]

def gW3 : Gist := ⟨"w3", [("m", "v")], 0, none, 0, 5, none⟩

def stW3 : St := ⟨[gW3], ["w3"]⟩

def gW3r : Gist := ⟨"w3", [("m", "v")], 0, none, 1, 5, none⟩

theorem c3_witness :
    (gistResponseOf envOk gW3r).read_count ≤ (gistResponseOf envOk gW3r).max_reads :=
  c3_read_cap_invariant.1 0 envOk stW3 "w3" (gistResponseOf envOk gW3r)
    ⟨[gW3r], ["w3"]⟩ (by rfl)

/-! ### C4: provider failure while minting the download grant -/

def gC4 : Gist := ⟨"c4", [("iv", "x")], 0, none, 0, 5, none⟩

def stC4 : St := ⟨[gC4], ["c4"]⟩

/-- C4 counterexample: with the provider failing every presigned-GET call
(`envNoUrl`), reading an otherwise accessible gist does NOT fail with a 500:
it returns a success response (with `download_url = none`), refuting
"the read fails with StorageUnavailable and the API Surface reports status
500, never a success response". -/
theorem c4_counterexample :
    (api_get_gist 0 envNoUrl stC4 "c4").1 =
      Except.ok ⟨"c4", none, [("iv", "x")], none, 1, 5, none⟩ := by rfl

/-- C4 amended: when the Object Store Gateway fails to mint the download
grant during a read of an otherwise accessible gist, `generate_presigned_url`
swallows the provider error and returns `None`, and the read still answers
success with `download_url` absent; provider-specific details never reach
the caller, and a read never reports a 500 at all (its only errors are
404 and 410). -/
theorem c4_grant_failure_still_succeeds :
    (∀ (now : Int) (env : StorageEnv) (st : St) (gist_id : String)
        (resp : GistResponse) (st2 : St),
        env.presignOk = false →
        api_get_gist now env st gist_id = (Except.ok resp, st2) →
        resp.download_url = none) ∧
    (∀ (now : Int) (env : StorageEnv) (st : St) (gist_id : String)
        (e : HTTPError),
        (api_get_gist now env st gist_id).1 = Except.error e →
        e.status = 404 ∨ e.status = 410) := by
  constructor
  · intro now env st gist_id resp st2 henv h
    obtain ⟨g, _, _, _, hresp, _⟩ := api_get_gist_ok_inv h
    subst hresp
    simp [gistResponseOf, Storage.generate_presigned_url, henv]
  · intro now env st gist_id e h
    cases hfind : get_gist st.db gist_id with
    | none =>
      rw [api_get_gist_absent hfind] at h
      simp only [Except.error.injEq] at h
      subst h
      left
      rfl
    | some g =>
      cases hexp : isExpired now g with
      | true =>
        rw [api_get_gist_expired hfind hexp] at h
        simp only [Except.error.injEq] at h
        subst h
        right
        rfl
      | false =>
        by_cases hrc : g.read_count ≥ g.max_reads
        · rw [api_get_gist_exhausted hfind hexp hrc] at h
          simp only [Except.error.injEq] at h
          subst h
          right
          rfl
        · push_neg at hrc
          rw [api_get_gist_active hfind hexp hrc] at h
          simp at h

theorem c4_witness :
    (⟨"c4", none, [("iv", "x")], none, 1, 5, none⟩ : GistResponse).download_url
      = none :=
  c4_grant_failure_still_succeeds.1 0 envNoUrl stC4 "c4"
    ⟨"c4", none, [("iv", "x")], none, 1, 5, none⟩
    ⟨[⟨"c4", [("iv", "x")], 0, none, 1, 5, none⟩], ["c4"]⟩ (by rfl) (by rfl)

/-! ### C5: unparseable expiration timestamp at create -/

/-- C5 counterexample: a create whose `expiration_date` string is
unparseable does not produce a 400/ValidationError: the uncaught
`ValueError` from `datetime.fromisoformat` surfaces as the framework's
500 "Internal Server Error" (no gist row is persisted, though). -/
theorem c5_counterexample :
    api_create_gist parseFixture envOk ⟨[], []⟩ "c5" 0
        ⟨[("iv", "x")], some "not-a-date", 100⟩ =
      (Except.error ⟨500, "Internal Server Error"⟩, ⟨[], []⟩) := by rfl

/-- C5 amended: for every create request whose `expirationDate` string is
non-empty and unparseable, the create fails — but with an uncaught
`ValueError` that the framework reports as status 500, not as a 400
ValidationError (the pydantic schema never validates the timestamp
format) — and no gist record is persisted (the state is returned
unchanged, since parsing precedes `db.add`). The empty string, although
unparseable by `fromisoformat`, never reaches the parser: it is falsy, so
`crud.create_gist` treats it as an absent expiration and persists the row
with `expiration_date = None`. -/
theorem c5_unparseable_create_is_500 :
    (∀ (parse : String → Option PyDatetime) (env : StorageEnv) (st : St)
        (newId : String) (now : Int) (meta : Meta) (s : String) (maxr : Int),
        s ≠ "" → parse s = none →
        api_create_gist parse env st newId now ⟨meta, some s, maxr⟩ =
          (Except.error ⟨500, "Internal Server Error"⟩, st)) ∧
    (∀ (parse : String → Option PyDatetime) (st : St) (newId : String)
        (now : Int) (meta : Meta) (maxr : Int),
        create_gist parse st newId now meta (some "") maxr =
          Except.ok (⟨newId, meta, now, none, 0, maxr, none⟩,
            { st with db := st.db ++
              [(⟨newId, meta, now, none, 0, maxr, none⟩ : Gist)] })) := by
  constructor
  · intro parse env st newId now meta s maxr hs hparse
    simp [api_create_gist, create_gist, parseExpiration, hs, hparse]
  · intro parse st newId now meta maxr
    rfl

theorem c5_witness :
    api_create_gist parseFixture envOk ⟨[], []⟩ "w5" 0 ⟨[], some "junk", 100⟩ =
      (Except.error ⟨500, "Internal Server Error"⟩, ⟨[], []⟩) :=
  c5_unparseable_create_is_500.1 parseFixture envOk ⟨[], []⟩ "w5" 0 [] "junk"
    100 (by decide) (by rfl)

/-! ### C6: destroyed gists stay destroyed -/

/-- C6: once a gist is destroyed — explicit delete (part i) or the
auto-delete performed by a read that answers 410 Gone (part ii) — the
metadata row is gone, so every subsequent read of that id fails with 404
NotFound and every subsequent delete fails with 404 NotFound (deleting
twice fails the second time); no terminal state is resurrected. -/
theorem c6_destroyed_stays_destroyed :
    (∀ (now : Int) (env env2 env3 : StorageEnv) (st : St) (gist_id : String),
        (api_delete_gist env st gist_id).1 = Except.ok 204 →
        (api_get_gist now env2 ((api_delete_gist env st gist_id).2) gist_id).1 =
          Except.error ⟨404, "Gist not found"⟩ ∧
        (api_delete_gist env3 ((api_delete_gist env st gist_id).2) gist_id).1 =
          Except.error ⟨404, "Gist not found"⟩) ∧
    (∀ (now now2 : Int) (env env2 env3 : StorageEnv) (st : St)
        (gist_id : String) (e : HTTPError),
        (api_get_gist now env st gist_id).1 = Except.error e → e.status = 410 →
        (api_get_gist now2 env2 ((api_get_gist now env st gist_id).2) gist_id).1 =
          Except.error ⟨404, "Gist not found"⟩ ∧
        (api_delete_gist env3 ((api_get_gist now env st gist_id).2) gist_id).1 =
          Except.error ⟨404, "Gist not found"⟩) := by
  constructor
  · intro now env env2 env3 st gist_id _
    have hnone : get_gist ((api_delete_gist env st gist_id).2).db gist_id = none := by
      rw [api_delete_gist_state]
      exact get_gist_delete_gist env st gist_id
    constructor
    · rw [api_get_gist_absent hnone]
    · rw [api_delete_gist_absent hnone]
  · intro now now2 env env2 env3 st gist_id e h hs
    have hstate := api_get_gist_gone_state h hs
    have hnone : get_gist ((api_get_gist now env st gist_id).2).db gist_id = none := by
      rw [hstate]
      exact get_gist_delete_gist env st gist_id
    constructor
    · rw [api_get_gist_absent hnone]
    · rw [api_delete_gist_absent hnone]

def gW6 : Gist := ⟨"w6", [("k", "v")], 0, none, 0, 5, none⟩

def stW6 : St := ⟨[gW6], ["w6"]⟩

theorem c6_witness :
    (api_get_gist 0 envOk ((api_delete_gist envOk stW6 "w6").2) "w6").1 =
      Except.error ⟨404, "Gist not found"⟩ ∧
    (api_delete_gist envOk ((api_delete_gist envOk stW6 "w6").2) "w6").1 =
      Except.error ⟨404, "Gist not found"⟩ :=
  c6_destroyed_stays_destroyed.1 0 envOk envOk envOk stW6 "w6" (by rfl)

/-! ### C7: delete succeeds regardless of the blob-delete outcome -/

/-- C7: deleting an existing gist removes the metadata row and reports 204;
the outcome of the object-storage blob deletion (`deleteOk` true or false)
never changes the caller-visible result (status and resulting table), and
the metadata deletion is never rolled back on blob-delete failure. -/
theorem c7_delete_ignores_blob_outcome (env : StorageEnv) (st : St)
    (gist_id : String) (g : Gist) (hfind : get_gist st.db gist_id = some g) :
    (api_delete_gist env st gist_id).1 = Except.ok 204 ∧
    ((api_delete_gist env st gist_id).2).db =
      st.db.filter (fun r => r.gist_id != gist_id) ∧
    (∀ b b2 : Bool,
        (api_delete_gist { env with deleteOk := b } st gist_id).1 =
          (api_delete_gist { env with deleteOk := b2 } st gist_id).1 ∧
        ((api_delete_gist { env with deleteOk := b } st gist_id).2).db =
          ((api_delete_gist { env with deleteOk := b2 } st gist_id).2).db) := by
  refine ⟨?_, ?_, ?_⟩
  · rw [api_delete_gist_found hfind]
  · rw [api_delete_gist_found hfind]
  · intro b b2
    constructor
    · rw [api_delete_gist_found hfind, api_delete_gist_found hfind]
    · rw [api_delete_gist_found hfind, api_delete_gist_found hfind]

def gW7 : Gist := ⟨"w7", [("k", "v")], 0, none, 3, 5, none⟩

def stW7 : St := ⟨[gW7], ["w7"]⟩

theorem c7_witness :
    (api_delete_gist { envOk with deleteOk := false } stW7 "w7").1 =
      Except.ok 204 :=
  (c7_delete_ignores_blob_outcome { envOk with deleteOk := false } stW7 "w7"
    gW7 (by rfl)).1

/-! ### C10: a successful read only bumps read_count -/

/-- C10: a successful read mutates only the `read_count` field of the gist
row: afterwards the row fetched by the same id is exactly the old row with
`read_count` one higher (`gist_id`, `gist_metadata`, `created_at`,
`expiration_date`, `max_reads`, `version_history` untouched); the bucket,
the table size, and every row with a different id are unchanged. -/
theorem c10_read_mutates_only_read_count (now : Int) (env : StorageEnv)
    (st : St) (gist_id : String) (g : Gist) (resp : GistResponse) (st2 : St)
    (hfind : get_gist st.db gist_id = some g)
    (h : api_get_gist now env st gist_id = (Except.ok resp, st2)) :
    st2.blobs = st.blobs ∧
    get_gist st2.db gist_id = some { g with read_count := g.read_count + 1 } ∧
    st2.db.length = st.db.length ∧
    (∀ r ∈ st.db, r.gist_id ≠ gist_id → r ∈ st2.db) := by
  obtain ⟨g', hfind', hexp, hrc, hresp, hst2⟩ := api_get_gist_ok_inv h
  rw [hfind] at hfind'
  have hg : g = g' := by simpa using hfind'
  subst hg
  subst hst2
  have hid : g.gist_id = gist_id := get_gist_eq_id hfind
  refine ⟨rfl, ?_, ?_, ?_⟩
  · exact get_gist_commitRow hfind hid
  · simp [commitRow]
  · intro r hr hne
    have hb : (r.gist_id == g.gist_id) = false := by
      rw [hid]
      exact beq_eq_false_iff_ne.mpr hne
    show r ∈ commitRow st.db { g with read_count := g.read_count + 1 }
    simp only [commitRow]
    refine List.mem_map.mpr ⟨r, hr, ?_⟩
    simp [hb]

theorem c10_witness :
    get_gist (St.mk [gW3r] ["w3"]).db "w3" = some gW3r :=
  (c10_read_mutates_only_read_count 0 envOk stW3 "w3" gW3
    (gistResponseOf envOk gW3r) ⟨[gW3r], ["w3"]⟩ (by rfl) (by rfl)).2.1

/-! ### C2: sequential reads of a fresh maxReads=5 gist -/

/-- One sequential read request: the state left behind by `api_get_gist`. -/
def stepRead (env : StorageEnv) (now : Int) (gist_id : String) (st : St) : St :=
  (api_get_gist now env st gist_id).2

/-- The state after `k` sequential read requests for the same id. -/
def iterRead (env : StorageEnv) (now : Int) (gist_id : String) :
    Nat → St → St
  | 0, st => st
  | k + 1, st => stepRead env now gist_id (iterRead env now gist_id k st)

/-- After `k ≤ 5` sequential reads of a fresh non-expiring row with
`max_reads = 5`, the stored row has `read_count = k` and every other field
as created. -/
theorem iterRead_state (env : StorageEnv) (now : Int) (gist_id : String)
    (meta : Meta) (ca : Int) (vh : Option (List String)) (st : St)
    (hfind : get_gist st.db gist_id = some ⟨gist_id, meta, ca, none, 0, 5, vh⟩) :
    ∀ k : Nat, k ≤ 5 →
      get_gist (iterRead env now gist_id k st).db gist_id =
        some ⟨gist_id, meta, ca, none, (k : Int), 5, vh⟩ := by
  intro k
  induction k with
  | zero =>
    intro _
    simpa using hfind
  | succ k ih =>
    intro hk
    have hstate := ih (by omega)
    have hklt : ((k : Nat) : Int) < 5 := by exact_mod_cast (show k < 5 by omega)
    have hread :=
      @api_get_gist_active now env (iterRead env now gist_id k st) gist_id _
        hstate rfl hklt
    show get_gist
        (stepRead env now gist_id (iterRead env now gist_id k st)).db gist_id =
      some ⟨gist_id, meta, ca, none, ((k + 1 : Nat) : Int), 5, vh⟩
    simp only [stepRead]
    rw [hread]
    exact get_gist_commitRow hstate rfl

/-- C2: starting from any state holding a freshly created, non-expiring row
with `max_reads = 5` and `read_count = 0`, each of the first five sequential
reads succeeds and its response carries `read_count = k + 1`
(k = 0,…,4: the persisted increment is visible to the very next read),
and the sixth read fails with 410 Gone ("Read limit exceeded"). -/
theorem c2_five_reads_then_gone (env : StorageEnv) (now : Int)
    (gist_id : String) (meta : Meta) (ca : Int) (vh : Option (List String))
    (st : St)
    (hfind : get_gist st.db gist_id = some ⟨gist_id, meta, ca, none, 0, 5, vh⟩) :
    (∀ k : Nat, k < 5 →
        (api_get_gist now env (iterRead env now gist_id k st) gist_id).1 =
          Except.ok (gistResponseOf env
            ⟨gist_id, meta, ca, none, (k : Int) + 1, 5, vh⟩)) ∧
    (api_get_gist now env (iterRead env now gist_id 5 st) gist_id).1 =
      Except.error ⟨410, "Read limit exceeded"⟩ := by
  constructor
  · intro k hk
    have hstate := iterRead_state env now gist_id meta ca vh st hfind k (by omega)
    have hklt : ((k : Nat) : Int) < 5 := by exact_mod_cast hk
    rw [api_get_gist_active hstate rfl hklt]
  · have hstate := iterRead_state env now gist_id meta ca vh st hfind 5 (by omega)
    have hrc : (⟨gist_id, meta, ca, none, ((5 : Nat) : Int), 5, vh⟩ : Gist).read_count ≥
        (⟨gist_id, meta, ca, none, ((5 : Nat) : Int), 5, vh⟩ : Gist).max_reads := by
      simp
    rw [api_get_gist_exhausted hstate rfl hrc]

def gW2 : Gist := ⟨"w2", [("m", "v")], 0, none, 0, 5, none⟩

def stW2 : St := ⟨[gW2], ["w2"]⟩

theorem c2_witness :
    (api_get_gist 0 envOk (iterRead envOk 0 "w2" 2 stW2) "w2").1 =
      Except.ok (gistResponseOf envOk ⟨"w2", [("m", "v")], 0, none, 3, 5, none⟩) := by
  exact (c2_five_reads_then_gone envOk 0 "w2" [("m", "v")] 0 none stW2
    (by rfl)).1 2 (by omega)

/-! ### C8: metadata round-trips untouched through the lifecycle -/

/-- A request in the lifetime of one gist id: a read at some instant, or an
explicit delete. -/
inductive Op where
  | read (now : Int)
  | del
  deriving Repr, DecidableEq

/-- The state left behind by one request against the given id. -/
def applyOp (env : StorageEnv) (gist_id : String) (st : St) : Op → St
  | Op.read now => (api_get_gist now env st gist_id).2
  | Op.del => (api_delete_gist env st gist_id).2

/-- The state after a sequence of requests against the given id. -/
def runOps (env : StorageEnv) (gist_id : String) : List Op → St → St
  | [], st => st
  | op :: ops, st => runOps env gist_id ops (applyOp env gist_id st op)

/-- Every row stored under the given id carries exactly the metadata `m`. -/
def MetaInv (gist_id : String) (m : Meta) (st : St) : Prop :=
  ∀ g ∈ st.db, g.gist_id = gist_id → g.gist_metadata = m

theorem metaInv_delete_gist {env : StorageEnv} {st : St} {gist_id : String}
    {m : Meta} (h : MetaInv gist_id m st) :
    MetaInv gist_id m (delete_gist env st gist_id).2 := by
  unfold delete_gist
  cases hf : get_gist st.db gist_id with
  | none => simpa using h
  | some g =>
    intro r hr hid
    exact h r (List.mem_of_mem_filter hr) hid

theorem metaInv_commitRow {st : St} {gist_id : String} {m : Meta}
    {g2 : Gist} (h : MetaInv gist_id m st) (hmeta : g2.gist_metadata = m) :
    MetaInv gist_id m ⟨commitRow st.db g2, st.blobs⟩ := by
  intro r hr hid
  simp only [commitRow] at hr
  obtain ⟨a, ha, hfa⟩ := List.mem_map.mp hr
  by_cases hb : (a.gist_id == g2.gist_id) = true
  · rw [if_pos hb] at hfa
    rw [← hfa]
    exact hmeta
  · rw [if_neg hb] at hfa
    rw [← hfa]
    exact h a ha (by rw [hfa]; exact hid)

theorem metaInv_applyOp (env : StorageEnv) (gist_id : String) (m : Meta)
    (st : St) (op : Op) (h : MetaInv gist_id m st) :
    MetaInv gist_id m (applyOp env gist_id st op) := by
  cases op with
  | del =>
    show MetaInv gist_id m ((api_delete_gist env st gist_id).2)
    rw [api_delete_gist_state]
    exact metaInv_delete_gist h
  | read now =>
    show MetaInv gist_id m ((api_get_gist now env st gist_id).2)
    cases hfind : get_gist st.db gist_id with
    | none =>
      rw [api_get_gist_absent hfind]
      exact h
    | some g =>
      cases hexp : isExpired now g with
      | true =>
        rw [api_get_gist_expired hfind hexp]
        exact metaInv_delete_gist h
      | false =>
        by_cases hrc : g.read_count ≥ g.max_reads
        · rw [api_get_gist_exhausted hfind hexp hrc]
          exact metaInv_delete_gist h
        · push_neg at hrc
          rw [api_get_gist_active hfind hexp hrc]
          exact metaInv_commitRow h
            (h g (get_gist_mem hfind) (get_gist_eq_id hfind))

theorem metaInv_runOps (env : StorageEnv) (gist_id : String) (m : Meta)
    (ops : List Op) (st : St) (h : MetaInv gist_id m st) :
    MetaInv gist_id m (runOps env gist_id ops st) := by
  induction ops generalizing st with
  | nil => simpa [runOps] using h
  | cons op ops ih =>
    show MetaInv gist_id m (runOps env gist_id ops (applyOp env gist_id st op))
    exact ih _ (metaInv_applyOp env gist_id m st op h)

/-- C8: round-trip of the opaque metadata — after a create persisting
metadata `meta` under a fresh id, however many reads and deletes of that id
follow, every read that still succeeds returns a response whose
`gist_metadata` is structurally equal to `meta` (the document is never
interpreted or modified). -/
theorem c8_metadata_roundtrip (parse : String → Option PyDatetime)
    (env : StorageEnv) (st : St) (newId : String) (now now2 : Int)
    (meta : Meta) (expStr : Option String) (maxr : Int) (g : Gist) (st1 : St)
    (ops : List Op) (resp : GistResponse)
    (hcreate : create_gist parse st newId now meta expStr maxr =
      Except.ok (g, st1))
    (hfresh : ∀ r ∈ st.db, r.gist_id ≠ newId)
    (hread : (api_get_gist now2 env (runOps env newId ops st1) newId).1 =
      Except.ok resp) :
    resp.gist_metadata = meta := by
  have hinv1 : MetaInv newId meta st1 := by
    cases hp : parseExpiration parse expStr with
    | error e => simp [create_gist, hp] at hcreate
    | ok exp_date =>
      simp only [create_gist, hp, Except.ok.injEq, Prod.mk.injEq] at hcreate
      rw [← hcreate.2]
      intro r hr hid
      rcases List.mem_append.mp hr with hl | hrr
      · exact absurd hid (hfresh r hl)
      · have hrec : r = ⟨newId, meta, now, exp_date, 0, maxr, none⟩ := by
          simpa using hrr
        rw [hrec]
  have hinv := metaInv_runOps env newId meta ops st1 hinv1
  have hpair : api_get_gist now2 env (runOps env newId ops st1) newId =
      (Except.ok resp, (api_get_gist now2 env (runOps env newId ops st1) newId).2) := by
    rw [← hread]
  obtain ⟨g', hfind', hexp, hrc, hresp, _⟩ := api_get_gist_ok_inv hpair
  subst hresp
  simpa [gistResponseOf] using
    hinv g' (get_gist_mem hfind') (get_gist_eq_id hfind')

def gW8 : Gist := ⟨"w8", [("iv", "z")], 0, none, 0, 3, none⟩

theorem c8_witness :
    (gistResponseOf envOk ⟨"w8", [("iv", "z")], 0, none, 1, 3, none⟩).gist_metadata =
      [("iv", "z")] :=
  c8_metadata_roundtrip parseFixture envOk ⟨[], []⟩ "w8" 0 1 [("iv", "z")]
    none 3 gW8 ⟨[gW8], []⟩ []
    (gistResponseOf envOk ⟨"w8", [("iv", "z")], 0, none, 1, 3, none⟩)
    (by rfl) (by simp) (by rfl)

/-! ### C9: maxReads ≤ 0 is accepted and the first read already fails -/

/-- C9: `create_gist` accepts any `max_reads`, including zero or negative
values (the pydantic schema imposes no bound), persisting the row with that
cap and `read_count = 0`; the very first read of such a gist then fails with
410 Gone — through the read-limit branch (or the expiration branch when the
gist was also created already expired) — and deletes the record, although
the gist was never successfully read. -/
theorem c9_nonpositive_max_reads (parse : String → Option PyDatetime)
    (env : StorageEnv) (st : St) (newId : String) (now now2 : Int)
    (meta : Meta) (expStr : Option String) (maxr : Int) (g : Gist) (st1 : St)
    (hmr : maxr ≤ 0)
    (hcreate : create_gist parse st newId now meta expStr maxr =
      Except.ok (g, st1))
    (hfresh : ∀ r ∈ st.db, r.gist_id ≠ newId) :
    g.max_reads = maxr ∧ g.read_count = 0 ∧
    ((api_get_gist now2 env st1 newId).1 = Except.error ⟨410, "Gist expired"⟩ ∨
     (api_get_gist now2 env st1 newId).1 =
       Except.error ⟨410, "Read limit exceeded"⟩) ∧
    get_gist ((api_get_gist now2 env st1 newId).2).db newId = none := by
  cases hp : parseExpiration parse expStr with
  | error e => simp [create_gist, hp] at hcreate
  | ok exp_date =>
    simp only [create_gist, hp, Except.ok.injEq, Prod.mk.injEq] at hcreate
    obtain ⟨hg, hst1⟩ := hcreate
    rw [← hg, ← hst1]
    have hfind : get_gist ({ st with db := st.db ++
        [(⟨newId, meta, now, exp_date, 0, maxr, none⟩ : Gist)] } : St).db newId =
        some ⟨newId, meta, now, exp_date, 0, maxr, none⟩ := by
      exact get_gist_append_fresh (fun r hr => hfresh r hr)
    refine ⟨rfl, rfl, ?_, ?_⟩
    · cases hexp : isExpired now2 (⟨newId, meta, now, exp_date, 0, maxr, none⟩ : Gist) with
      | true =>
        rw [api_get_gist_expired hfind hexp]
        exact Or.inl rfl
      | false =>
        rw [api_get_gist_exhausted hfind hexp hmr]
        exact Or.inr rfl
    · cases hexp : isExpired now2 (⟨newId, meta, now, exp_date, 0, maxr, none⟩ : Gist) with
      | true =>
        rw [api_get_gist_expired hfind hexp]
        exact get_gist_delete_gist env _ newId
      | false =>
        rw [api_get_gist_exhausted hfind hexp hmr]
        exact get_gist_delete_gist env _ newId

def gW9 : Gist := ⟨"w9", [("a", "b")], 0, none, 0, 0, none⟩

theorem c9_witness :
    (api_get_gist 7 envOk ⟨[gW9], []⟩ "w9").1 =
      Except.error ⟨410, "Gist expired"⟩ ∨
    (api_get_gist 7 envOk ⟨[gW9], []⟩ "w9").1 =
      Except.error ⟨410, "Read limit exceeded"⟩ :=
  (c9_nonpositive_max_reads parseFixture envOk ⟨[], []⟩ "w9" 0 7 [("a", "b")]
    none 0 gW9 ⟨[gW9], []⟩ (by omega) (by rfl) (by simp)).2.2.1
